import Mathlib

/-!
Verification of the two batch scripts in this repository:
* `apps/backend/src/scripts/generate-product-images.py` (placeholder product
  image generator), and
* `organize_stories.py` (sprint-story file organizer).

Both scripts are sequential batch loops over a list of items with per-item
try/except error handling.  The embedding below models each script's pure
data flow directly; the effectful boundary (PIL rendering / `img.save`,
`shutil.move`, `os.path.exists`, reading the status file, `os.makedirs`) is
represented by oracle parameters (`Bool`-valued functions / `Option` inputs)
that say whether each external operation succeeds, so every theorem is
quantified over all possible outcomes of the environment.
-/

set_option autoImplicit false

namespace ProductImages

/-- One record of `IMAGE_CONFIGS`: a dict
`{"product": .., "variant": .., "color": .., "index": .., "width": .., "height": ..}`. -/
structure ImageConfig where
  product : String
  variant : String
  color : String
  index : Nat
  width : Nat
  height : Nat
deriving Repr, DecidableEq

/-- The literal `IMAGE_CONFIGS` list of `generate-product-images.py`. -/
def IMAGE_CONFIGS : List ImageConfig := [
  -- The Nuzzle - Cloud White (2 images)
  ⟨"nuzzle", "cloud-white", "#F5F5F0", 1, 800, 800⟩,
  ⟨"nuzzle", "cloud-white", "#F5F5F0", 2, 800, 800⟩,
  -- The Nuzzle - Sage (2 images)
  ⟨"nuzzle", "sage", "#9CAF88", 1, 800, 800⟩,
  ⟨"nuzzle", "sage", "#9CAF88", 2, 800, 800⟩,
  -- The Nuzzle - Terra Cotta (2 images)
  ⟨"nuzzle", "terra-cotta", "#C17A5F", 1, 800, 800⟩,
  ⟨"nuzzle", "terra-cotta", "#C17A5F", 2, 800, 800⟩,
  -- The Cradle - Cloud White (2 images)
  ⟨"cradle", "cloud-white", "#F5F5F0", 1, 800, 1000⟩,
  ⟨"cradle", "cloud-white", "#F5F5F0", 2, 800, 1000⟩,
  -- The Cradle - Charcoal (2 images)
  ⟨"cradle", "charcoal", "#36454F", 1, 800, 1000⟩,
  ⟨"cradle", "charcoal", "#36454F", 2, 800, 1000⟩,
  -- The Cradle - Navy (2 images)
  ⟨"cradle", "navy", "#001F3F", 1, 800, 1000⟩,
  ⟨"cradle", "navy", "#001F3F", 2, 800, 1000⟩,
  -- The Bear Hug - Cloud White (2 images)
  ⟨"bearhug", "cloud-white", "#F5F5F0", 1, 1000, 1200⟩,
  ⟨"bearhug", "cloud-white", "#F5F5F0", 2, 1000, 1200⟩,
  -- The Bear Hug - Sand (2 images)
  ⟨"bearhug", "sand", "#C2B280", 1, 1000, 1200⟩,
  ⟨"bearhug", "sand", "#C2B280", 2, 1000, 1200⟩,
  -- The Bear Hug - Stone (2 images)
  ⟨"bearhug", "stone", "#8B8680", 1, 1000, 1200⟩,
  ⟨"bearhug", "stone", "#8B8680", 2, 1000, 1200⟩,
  -- The Sandbar - Sunset Orange (2 images)
  ⟨"sandbar", "sunset-orange", "#FF6B35", 1, 1200, 1500⟩,
  ⟨"sandbar", "sunset-orange", "#FF6B35", 2, 1200, 1500⟩,
  -- The Sandbar - Ocean Blue (2 images)
  ⟨"sandbar", "ocean-blue", "#006994", 1, 1200, 1500⟩,
  ⟨"sandbar", "ocean-blue", "#006994", 2, 1200, 1500⟩,
  -- The Chef's Mate - Checkered Red (2 images)
  ⟨"chefs-mate", "checkered-red", "#B22222", 1, 800, 1000⟩,
  ⟨"chefs-mate", "checkered-red", "#B22222", 2, 800, 1000⟩,
  -- The Chef's Mate - Classic Stripe (2 images)
  ⟨"chefs-mate", "classic-stripe", "#2F4F4F", 1, 800, 1000⟩,
  ⟨"chefs-mate", "classic-stripe", "#2F4F4F", 2, 800, 1000⟩,
  -- The Hearth - Walnut (2 images)
  ⟨"hearth", "walnut", "#5C4033", 1, 1000, 1200⟩,
  ⟨"hearth", "walnut", "#5C4033", 2, 1000, 1200⟩,
  -- The Hearth - Slate (2 images)
  ⟨"hearth", "slate", "#708090", 1, 1000, 1200⟩,
  ⟨"hearth", "slate", "#708090", 2, 1000, 1200⟩,
  -- Wool Dryer Balls (1 image - single variant)
  ⟨"wool-dryer-balls", "natural", "#D4A574", 1, 800, 800⟩]

/-- `UPLOADS_DIR = os.path.join(dirname(dirname(dirname(__file__))), "uploads")`.
The script lives at `apps/backend/src/scripts/generate-product-images.py`, so
three `dirname` applications land at `apps/backend` and the uploads directory
is `apps/backend/uploads` (relative to the repository root). -/
def UPLOADS_DIR : String := "apps/backend/uploads"

/-- `f"{config['product']}-{config['variant']}-0{config['index']}.png"`
(line 155 of the script). -/
def imageName (c : ImageConfig) : String :=
  c.product ++ "-" ++ c.variant ++ "-0" ++ toString c.index ++ ".png"

/-- `filepath = os.path.join(UPLOADS_DIR, filename)` (line 156). -/
def imageFilepath (c : ImageConfig) : String :=
  UPLOADS_DIR ++ "/" ++ imageName c

/-- Console lines produced by the loop body of `main`: the success line
`✓ Generated: {filename} ...` and the failure line
`✗ Failed to generate {product}-{variant}-0{index}: ...`. -/
inductive GenLog where
  | ok (filename : String)
  | failed (name : String)
deriving Repr, DecidableEq

/-- State threaded through `main`'s loop: files written to the uploads
directory so far, console output, and the two counters `generated`/`errors`. -/
structure GenState where
  files : List String
  logs : List GenLog
  generated : Nat
  errors : Nat
deriving Repr, DecidableEq

def initGenState : GenState := ⟨[], [], 0, 0⟩

/-- One iteration of `main`'s `for config in IMAGE_CONFIGS` loop.  `failed`
says whether the try-block body (`generate_image` / `img.save` /
`os.path.getsize`) raised for this item; the except-arm logs and bumps
`errors`, the normal arm writes exactly the file `imageFilepath c`, logs,
and bumps `generated`. -/
def processConfig (failed : Bool) (st : GenState) (c : ImageConfig) : GenState :=
  if failed then
    { st with
      logs := st.logs ++ [GenLog.failed
        (c.product ++ "-" ++ c.variant ++ "-0" ++ toString c.index)]
      errors := st.errors + 1 }
  else
    { st with
      files := st.files ++ [imageFilepath c]
      logs := st.logs ++ [GenLog.ok (imageName c)]
      generated := st.generated + 1 }

/-- The loop of `main` over the (rest of the) config list; `fails i` is the
outcome oracle for the item at absolute position `i`. -/
def genLoop (fails : Nat → Bool) : Nat → GenState → List ImageConfig → GenState
  | _, st, [] => st
  | i, st, c :: cs => genLoop fails (i + 1) (processConfig (fails i) st c) cs

/-- The whole of `main` up to its summary print: run the loop over
`IMAGE_CONFIGS` from the empty initial state. -/
def runGen (fails : Nat → Bool) : GenState :=
  genLoop fails 0 initGenState IMAGE_CONFIGS

/-- `return 0 if errors == 0 else 1` (line 170), which `sys.exit` turns into
the process exit code. -/
def mainExit (fails : Nat → Bool) : Nat :=
  if (runGen fails).errors = 0 then 0 else 1

/-- `hex_color.lstrip('#')`: Python's `lstrip` removes every leading `#`. -/
def lstripHash : List Char → List Char
  | '#' :: cs => lstripHash cs
  | cs => cs

/-- Value of a single hexadecimal digit as accepted by Python's
`int(_, 16)`: `0`-`9`, `a`-`f`, `A`-`F` (by code point). -/
def hexDigitVal (c : Char) : Option Nat :=
  if 48 ≤ c.toNat ∧ c.toNat ≤ 57 then some (c.toNat - 48)
  else if 97 ≤ c.toNat ∧ c.toNat ≤ 102 then some (c.toNat - 87)
  else if 65 ≤ c.toNat ∧ c.toNat ≤ 70 then some (c.toNat - 55)
  else none

def hexFold : List Char → Nat → Option Nat
  | [], acc => some acc
  | c :: cs, acc =>
    match hexDigitVal c with
    | some v => hexFold cs (16 * acc + v)
    | none => none

/-- Python `int(s, 16)` on a plain digit string: fails (raises `ValueError`)
on the empty string or on any non-hex-digit character, otherwise folds the
digits in base 16. -/
def pythonIntHex (cs : List Char) : Option Nat :=
  if cs.isEmpty then none else hexFold cs 0

/-- Python slice `l[a:b]` (clamping, as `take`/`drop` do). -/
def pySlice (cs : List Char) (a b : Nat) : List Char :=
  (cs.drop a).take (b - a)

/-- `hex_to_rgb` (lines 82-85):
`hex_color = hex_color.lstrip('#')`, then
`tuple(int(hex_color[i:i+2], 16) for i in (0, 2, 4))`.
`none` models the `ValueError` that `int` raises on bad input. -/
def hex_to_rgb (s : List Char) : Option (Nat × Nat × Nat) :=
  let h := lstripHash s
  match pythonIntHex (pySlice h 0 2), pythonIntHex (pySlice h 2 4),
        pythonIntHex (pySlice h 4 6) with
  | some r, some g, some b => some (r, g, b)
  | _, _, _ => none

end ProductImages

namespace OrganizeStories

/-- `STATUS_FOLDERS = ['done', 'ready-for-dev', 'in-progress', 'backlog', 'drafted']`. -/
def STATUS_FOLDERS : List String :=
  ["done", "ready-for-dev", "in-progress", "backlog", "drafted"]

/-- One match of the regex
`r'(\S+):\s*\n\s+path:\s*(\S+)\s*\n\s+status:\s*(\S+)'` over the status
file: group 1 (story key), group 2 (path), group 3 (status).  The scan
itself (`re.finditer`) is abstracted: theorems quantify over the list of
matches in file order. -/
structure StoryMatch where
  key : String
  path : String
  status : String
deriving Repr, DecidableEq

/-- `os.path.basename`: the part of a POSIX path after the last `/`. -/
def basename (p : String) : String :=
  (p.splitOn "/").getLastD ""

/-- Python dict assignment `d[k] = v` on an insertion-ordered association
list: an existing key keeps its position and gets the new value, a new key
is appended at the end. -/
def dictInsert (d : List (String × String)) (k v : String) :
    List (String × String) :=
  if ∃ p ∈ d, p.1 = k then
    d.map (fun p => if p.1 = k then (k, v) else p)
  else d ++ [(k, v)]

/-- Python dict lookup `d[k]` / `k in d`. -/
def dictLookup (d : List (String × String)) (k : String) : Option String :=
  (d.find? (fun p => p.1 == k)).map Prod.snd

/-- `parse_stories_from_yaml`'s loop (lines 30-37): for each match, key the
dict by `os.path.basename(path)` and store the status. -/
def parse_stories (ms : List StoryMatch) : List (String × String) :=
  ms.foldl (fun d m => dictInsert d (basename m.path) m.status) []

/-- `target_folder = status if status in STATUS_FOLDERS else 'backlog'`
(line 61). -/
def targetFolder (status : String) : String :=
  if status ∈ STATUS_FOLDERS then status else "backlog"

/-- Console lines of `organize_stories`' loop: `Moved to {folder}/: {fn}` and
`Error moving {fn}: ...`. -/
inductive OrgLog where
  | movedTo (folder filename : String)
  | error (filename : String)
deriving Repr, DecidableEq

/-- State threaded through `organize_stories`' loop: completed moves
(filename, target folder), console output, and the counters
`moved_count` / `skipped_count`. -/
structure OrgState where
  moves : List (String × String)
  logs : List OrgLog
  moved : Nat
  skipped : Nat
deriving Repr, DecidableEq

def initOrgState : OrgState := ⟨[], [], 0, 0⟩

/-- One iteration of the `for filename, status in stories.items()` loop
(lines 53-71).  `exists_ fn` models `os.path.exists(src_path)`; a missing
file is skipped by `continue` with no effect at all.  `moveFails fn`
models `shutil.move` raising; the except-arm logs the error and bumps
`skipped_count`, the normal arm records the move and bumps `moved_count`. -/
def processStory (exists_ moveFails : String → Bool) (st : OrgState)
    (fn status : String) : OrgState :=
  if exists_ fn = false then st
  else if moveFails fn then
    { st with logs := st.logs ++ [OrgLog.error fn], skipped := st.skipped + 1 }
  else
    { st with
      moves := st.moves ++ [(fn, targetFolder status)]
      logs := st.logs ++ [OrgLog.movedTo (targetFolder status) fn]
      moved := st.moved + 1 }

/-- The loop of `organize_stories` over the parsed stories. -/
def orgLoop (exists_ moveFails : String → Bool) :
    OrgState → List (String × String) → OrgState
  | st, [] => st
  | st, (fn, status) :: ss =>
    orgLoop exists_ moveFails (processStory exists_ moveFails st fn status) ss

/-- The whole organizer run.  `content?` abstracts reading `YAML_PATH`:
`none` means `open`/`read` raised (the exception is caught nowhere, so the
run aborts), `some ms` gives the regex matches of the file content.
`mkdirOk` models the five `os.makedirs(.., exist_ok=True)` calls: `false`
means one of them raised (e.g. a plain file occupies a folder path), which
likewise aborts.  A `none` result is an uncaught exception escaping
`organize_stories`. -/
def organize_stories (content? : Option (List StoryMatch)) (mkdirOk : Bool)
    (exists_ moveFails : String → Bool) : Option OrgState :=
  match content? with
  | none => none
  | some ms =>
    if mkdirOk then
      some (orgLoop exists_ moveFails initOrgState (parse_stories ms))
    else none

/-- Process exit code of `python organize_stories.py`: the `__main__` block
calls `organize_stories()` and falls off the end (exit 0); an uncaught
exception makes the interpreter exit with code 1. -/
def organizerExitCode (content? : Option (List StoryMatch)) (mkdirOk : Bool)
    (exists_ moveFails : String → Bool) : Nat :=
  match organize_stories content? mkdirOk exists_ moveFails with
  | some _ => 0
  | none => 1

end OrganizeStories

namespace ProductImages

/-- The files `main`'s loop writes when started at absolute position `i`:
one file per non-failing item, in item order. -/
def writtenFiles (fails : Nat → Bool) : Nat → List ImageConfig → List String
  | _, [] => []
  | i, c :: cs =>
    (if fails i then [] else [imageFilepath c]) ++ writtenFiles fails (i + 1) cs

theorem genLoop_append (fails : Nat → Bool) (p s : List ImageConfig) :
    ∀ (i : Nat) (st : GenState),
      genLoop fails i st (p ++ s)
        = genLoop fails (i + p.length) (genLoop fails i st p) s := by
  induction p with
  | nil => intro i st; simp [genLoop]
  | cons c cs ih =>
    intro i st
    show genLoop fails (i + 1) (processConfig (fails i) st c) (cs ++ s) = _
    rw [ih]
    have h : i + 1 + cs.length = i + (c :: cs).length := by
      simp [List.length_cons]; omega
    rw [h]
    rfl

theorem genLoop_files (fails : Nat → Bool) :
    ∀ (cs : List ImageConfig) (i : Nat) (st : GenState),
      (genLoop fails i st cs).files = st.files ++ writtenFiles fails i cs := by
  intro cs
  induction cs with
  | nil => intro i st; simp [genLoop, writtenFiles]
  | cons c cs ih =>
    intro i st
    rw [genLoop, writtenFiles, ih]
    cases hfi : fails i <;> simp [processConfig, hfi]

theorem genLoop_sum (fails : Nat → Bool) :
    ∀ (cs : List ImageConfig) (i : Nat) (st : GenState),
      (genLoop fails i st cs).generated + (genLoop fails i st cs).errors
        = st.generated + st.errors + cs.length := by
  intro cs
  induction cs with
  | nil => intro i st; simp [genLoop]
  | cons c cs ih =>
    intro i st
    rw [genLoop, ih]
    cases hfi : fails i <;> simp [processConfig, hfi] <;> omega

theorem genLoop_errors_zero (fails : Nat → Bool) :
    ∀ (cs : List ImageConfig) (i : Nat) (st : GenState),
      ((genLoop fails i st cs).errors = 0 ↔
        st.errors = 0 ∧ ∀ k, k < cs.length → fails (i + k) = false) := by
  intro cs
  induction cs with
  | nil => intro i st; simp [genLoop]
  | cons c cs ih =>
    intro i st
    rw [genLoop, ih]
    cases hfi : fails i with
    | false =>
      simp only [processConfig, hfi, if_neg Bool.false_ne_true]
      constructor
      · rintro ⟨h0, hall⟩
        refine ⟨h0, fun k hk => ?_⟩
        cases k with
        | zero => simpa using hfi
        | succ k =>
          have h := hall k (by simpa using Nat.lt_of_succ_lt_succ hk)
          have he : i + 1 + k = i + (k + 1) := by omega
          rwa [he] at h
      · rintro ⟨h0, hall⟩
        refine ⟨h0, fun k hk => ?_⟩
        have h := hall (k + 1) (by simpa using Nat.succ_lt_succ hk)
        have he : i + 1 + k = i + (k + 1) := by omega
        rwa [he]
    | true =>
      simp only [processConfig, hfi, if_pos rfl]
      constructor
      · rintro ⟨h0, _⟩
        exact absurd h0 (by simp)
      · rintro ⟨-, hall⟩
        have h := hall 0 (by simp)
        simp at h
        rw [h] at hfi
        exact absurd hfi (by simp)

theorem mem_writtenFiles (fails : Nat → Bool) :
    ∀ (cs : List ImageConfig) (i : Nat) (x : String),
      x ∈ writtenFiles fails i cs → x ∈ cs.map imageFilepath := by
  intro cs
  induction cs with
  | nil => intro i x hx; simp [writtenFiles] at hx
  | cons c cs ih =>
    intro i x hx
    rw [writtenFiles, List.mem_append] at hx
    rcases hx with hx | hx
    · cases hfi : fails i <;> rw [hfi] at hx <;> simp at hx
      simp [hx]
    · exact List.mem_cons_of_mem _ (ih (i + 1) x hx)

theorem writtenFiles_count (fails : Nat → Bool) :
    ∀ (cs : List ImageConfig) (i : Nat),
      (cs.map imageFilepath).Nodup →
      ∀ (k : Nat) (hk : k < cs.length),
        (writtenFiles fails i cs).count (imageFilepath cs[k])
          = if fails (i + k) then 0 else 1 := by
  intro cs
  induction cs with
  | nil => intro i _ k hk; simp at hk
  | cons c cs ih =>
    intro i hnd k hk
    rw [List.map_cons, List.nodup_cons] at hnd
    obtain ⟨hnotmem, hnd'⟩ := hnd
    rw [writtenFiles, List.count_append]
    cases k with
    | zero =>
      simp only [List.getElem_cons_zero, Nat.add_zero]
      have h1 : (writtenFiles fails (i + 1) cs).count (imageFilepath c) = 0 := by
        rw [List.count_eq_zero]
        intro hmem
        exact hnotmem (mem_writtenFiles fails cs (i + 1) _ hmem)
      rw [h1]
      split <;> simp
    | succ k =>
      have hklt : k < cs.length := by simpa using Nat.lt_of_succ_lt_succ hk
      simp only [List.getElem_cons_succ]
      have hne : imageFilepath cs[k] ≠ imageFilepath c := by
        intro he
        apply hnotmem
        rw [← he]
        exact List.mem_map_of_mem _ (List.getElem_mem hklt)
      have h0 : ((if fails i then ([] : List String)
          else [imageFilepath c])).count (imageFilepath cs[k]) = 0 := by
        cases fails i <;> simp [List.count_eq_zero, hne]
      have he : i + 1 + k = i + (k + 1) := by omega
      rw [h0, Nat.zero_add, ih (i + 1) hnd' k hklt, he]

theorem imageFilepaths_nodup : (IMAGE_CONFIGS.map imageFilepath).Nodup := by
  decide

end ProductImages

namespace OrganizeStories

theorem orgLoop_append (e m : String → Bool) (p s : List (String × String)) :
    ∀ st : OrgState,
      orgLoop e m st (p ++ s) = orgLoop e m (orgLoop e m st p) s := by
  induction p with
  | nil => intro st; rfl
  | cons q ps ih =>
    obtain ⟨fn, stt⟩ := q
    intro st
    show orgLoop e m (processStory e m st fn stt) (ps ++ s) = _
    rw [ih]
    rfl

theorem orgLoop_moved (e m : String → Bool) :
    ∀ (ss : List (String × String)) (st : OrgState),
      (orgLoop e m st ss).moved
        = st.moved + (ss.filter (fun q => e q.1 && !m q.1)).length := by
  intro ss
  induction ss with
  | nil => intro st; simp [orgLoop]
  | cons q ss ih =>
    obtain ⟨fn, stt⟩ := q
    intro st
    show (orgLoop e m (processStory e m st fn stt) ss).moved = _
    rw [ih]
    by_cases he : e fn
    · by_cases hm : m fn
      · simp [processStory, he, hm]
      · simp [processStory, he, hm]
        omega
    · simp [processStory, he]

theorem orgLoop_skipped (e m : String → Bool) :
    ∀ (ss : List (String × String)) (st : OrgState),
      (orgLoop e m st ss).skipped
        = st.skipped + (ss.filter (fun q => e q.1 && m q.1)).length := by
  intro ss
  induction ss with
  | nil => intro st; simp [orgLoop]
  | cons q ss ih =>
    obtain ⟨fn, stt⟩ := q
    intro st
    show (orgLoop e m (processStory e m st fn stt) ss).skipped = _
    rw [ih]
    by_cases he : e fn
    · by_cases hm : m fn
      · simp [processStory, he, hm]
        omega
      · simp [processStory, he, hm]
    · simp [processStory, he]

theorem filter_length_split (e m : String → Bool) :
    ∀ ss : List (String × String),
      (ss.filter (fun q => e q.1 && !m q.1)).length
          + (ss.filter (fun q => e q.1 && m q.1)).length
        = (ss.filter (fun q => e q.1)).length := by
  intro ss
  induction ss with
  | nil => simp
  | cons q ss ih =>
    by_cases he : e q.1
    · by_cases hm : m q.1
      · simp [List.filter_cons, he, hm]
        omega
      · simp [List.filter_cons, he, hm]
        omega
    · simp [List.filter_cons, he, ih]

end OrganizeStories

namespace OrganizeStories

theorem dictLookup_map_update_ne (k v k' : String) (hne : k' ≠ k) :
    ∀ d : List (String × String),
      dictLookup (d.map (fun p => if p.1 = k then (k, v) else p)) k'
        = dictLookup d k' := by
  intro d
  induction d with
  | nil => rfl
  | cons p d ih =>
    by_cases hp : p.1 = k
    · have hk : ¬ (k == k') = true := by
        simp [Ne.symm hne]
      simp only [List.map_cons, dictLookup, List.find?_cons, if_pos hp]
      rw [show ((k, v).1 == k') = false from by simpa using Ne.symm hne]
      by_cases hpk : (p.1 == k') = true
      · exact absurd (by simpa using hpk) (by rw [hp]; exact Ne.symm hne)
      · rw [show (p.1 == k') = false from by simpa using hpk]
        exact ih
    · simp only [List.map_cons, dictLookup, List.find?_cons, if_neg hp]
      by_cases hpk : (p.1 == k') = true
      · rw [hpk]
      · rw [show (p.1 == k') = false from by simpa using hpk]
        exact ih

theorem dictLookup_map_update_mem (k v : String) :
    ∀ d : List (String × String), (∃ p ∈ d, p.1 = k) →
      dictLookup (d.map (fun p => if p.1 = k then (k, v) else p)) k
        = some v := by
  intro d
  induction d with
  | nil => rintro ⟨p, hp, -⟩; simp at hp
  | cons p d ih =>
    rintro ⟨q, hq, hqk⟩
    by_cases hp : p.1 = k
    · simp [dictLookup, List.find?_cons, if_pos hp]
    · simp only [List.map_cons, dictLookup, List.find?_cons, if_neg hp]
      rw [show (p.1 == k) = false from by simpa using hp]
      apply ih
      rcases List.mem_cons.mp hq with hq | hq
      · exact absurd (hq ▸ hqk) hp
      · exact ⟨q, hq, hqk⟩

theorem dictLookup_insert (d : List (String × String)) (k v k' : String) :
    dictLookup (dictInsert d k v) k'
      = if k' = k then some v else dictLookup d k' := by
  rw [dictInsert]
  by_cases hmem : ∃ p ∈ d, p.1 = k
  · rw [if_pos hmem]
    by_cases hk : k' = k
    · rw [if_pos hk, hk]
      exact dictLookup_map_update_mem k v d hmem
    · rw [if_neg hk]
      exact dictLookup_map_update_ne k v k' hk d
  · rw [if_neg hmem]
    rw [dictLookup, List.find?_append]
    by_cases hk : k' = k
    · rw [if_pos hk]
      have h1 : d.find? (fun p => p.1 == k') = none := by
        rw [List.find?_eq_none]
        intro p hp hbeq
        exact hmem ⟨p, hp, by rw [eq_of_beq hbeq, hk]⟩
      rw [h1]
      simp [List.find?_cons, hk.symm]
    · rw [if_neg hk]
      have h2 : List.find? (fun p => p.1 == k') [(k, v)] = none := by
        simp [List.find?_cons, Ne.symm hk]
      rw [h2]
      simp [dictLookup]

theorem parse_stories_append (ms : List StoryMatch) (mm : StoryMatch) :
    parse_stories (ms ++ [mm])
      = dictInsert (parse_stories ms) (basename mm.path) mm.status := by
  rw [parse_stories, List.foldl_append]
  rfl

theorem dictInsert_keys (d : List (String × String)) (k v : String) :
    (dictInsert d k v).map Prod.fst
      = if ∃ p ∈ d, p.1 = k then d.map Prod.fst
        else d.map Prod.fst ++ [k] := by
  rw [dictInsert]
  by_cases hmem : ∃ p ∈ d, p.1 = k
  · rw [if_pos hmem, if_pos hmem, List.map_map]
    apply List.map_congr_left
    intro p _
    by_cases hp : p.1 = k <;> simp [hp]
  · rw [if_neg hmem, if_neg hmem]
    simp

theorem dictInsert_keys_nodup (d : List (String × String)) (k v : String)
    (hnd : (d.map Prod.fst).Nodup) :
    ((dictInsert d k v).map Prod.fst).Nodup := by
  rw [dictInsert_keys]
  by_cases hmem : ∃ p ∈ d, p.1 = k
  · rwa [if_pos hmem]
  · rw [if_neg hmem]
    rw [List.nodup_append]
    refine ⟨hnd, List.nodup_singleton k, ?_⟩
    intro a ha hak
    rcases List.mem_map.mp ha with ⟨p, hp, hpa⟩
    rcases List.mem_singleton.mp hak with rfl
    exact hmem ⟨p, hp, hpa⟩

theorem parse_stories_keys_nodup (ms : List StoryMatch) :
    ((parse_stories ms).map Prod.fst).Nodup := by
  induction ms using List.reverseRecOn with
  | nil => simp [parse_stories]
  | append_singleton l mm ih =>
    rw [parse_stories_append]
    exact dictInsert_keys_nodup _ _ _ ih

theorem filter_key_length_eq_count (b : String) :
    ∀ d : List (String × String),
      (d.filter (fun q => q.1 == b)).length = (d.map Prod.fst).count b := by
  intro d
  induction d with
  | nil => rfl
  | cons p d ih =>
    by_cases hp : p.1 = b
    · simp [List.filter_cons, List.count_cons, hp, ih]
    · simp [List.filter_cons, List.count_cons, hp, ih, Ne.symm hp]

end OrganizeStories

namespace OrganizeStories

theorem parse_stories_lookup (ms : List StoryMatch) (b : String) :
    dictLookup (parse_stories ms) b
      = (ms.reverse.find? (fun mm => basename mm.path == b)).map
          StoryMatch.status := by
  induction ms using List.reverseRecOn with
  | nil => rfl
  | append_singleton l mm ih =>
    rw [parse_stories_append, dictLookup_insert, List.reverse_append]
    simp only [List.reverse_cons, List.reverse_nil, List.nil_append,
      List.singleton_append, List.find?_cons]
    by_cases hb : basename mm.path = b
    · rw [if_pos hb.symm]
      rw [show (basename mm.path == b) = true from by simpa using hb]
      rfl
    · rw [if_neg (Ne.symm hb)]
      rw [show (basename mm.path == b) = false from by simpa using hb]
      exact ih

end OrganizeStories

namespace ProductImages

theorem hexDigitVal_le_15 (c : Char) (v : Nat) (h : hexDigitVal c = some v) :
    v ≤ 15 := by
  rw [hexDigitVal] at h
  split_ifs at h with ha hb hc
  · simp at h; omega
  · simp at h; omega
  · simp at h; omega

theorem hexDigitVal_ne_hash (c : Char) (v : Nat) (h : hexDigitVal c = some v) :
    ¬ c = '#' := by
  intro he
  have hhash : hexDigitVal '#' = none := by decide
  rw [he, hhash] at h
  exact Option.noConfusion h

theorem lstripHash_cons_ne (c : Char) (cs : List Char) (h : ¬ c = '#') :
    lstripHash (c :: cs) = c :: cs := by
  rw [lstripHash.eq_def]
  split
  · next heq => injection heq with h1 h2; exact absurd h1 h
  · rfl

theorem pythonIntHex_pair (a b : Char) (va vb : Nat)
    (ha : hexDigitVal a = some va) (hb : hexDigitVal b = some vb) :
    pythonIntHex [a, b] = some (16 * va + vb) := by
  have h0 : pythonIntHex [a, b] = hexFold [a, b] 0 := rfl
  rw [h0]
  simp only [hexFold, ha, hb]
  congr 1
  omega

end ProductImages

section Claims

open ProductImages OrganizeStories

/-- Claim C1: for every record of `IMAGE_CONFIGS`, `main` processes it in
exactly one of two mutually exclusive ways: on success exactly one file with
the deterministic name is in the uploads directory (count 1 in the written
files) and the `generated` counter increments, on failure no such file is
written and the `errors` counter increments; and over the whole run
`generated + errors` equals the number of configured records. -/
theorem generator_each_item_one_outcome (fails : Nat → Bool) :
    (runGen fails).generated + (runGen fails).errors = IMAGE_CONFIGS.length
    ∧ (∀ (k : Nat) (hk : k < IMAGE_CONFIGS.length),
        (fails k = false →
          (runGen fails).files.count (imageFilepath IMAGE_CONFIGS[k]) = 1)
        ∧ (fails k = true →
          imageFilepath IMAGE_CONFIGS[k] ∉ (runGen fails).files))
    ∧ ∀ (st : GenState) (c : ImageConfig),
        (processConfig false st c).files = st.files ++ [imageFilepath c]
        ∧ (processConfig false st c).generated = st.generated + 1
        ∧ (processConfig false st c).errors = st.errors
        ∧ (processConfig true st c).files = st.files
        ∧ (processConfig true st c).generated = st.generated
        ∧ (processConfig true st c).errors = st.errors + 1 := by
  refine ⟨?_, ?_, fun st c => ⟨rfl, rfl, rfl, rfl, rfl, rfl⟩⟩
  · have h := genLoop_sum fails IMAGE_CONFIGS 0 initGenState
    simpa [runGen, initGenState] using h
  · intro k hk
    have hfiles : (runGen fails).files = writtenFiles fails 0 IMAGE_CONFIGS := by
      have h := genLoop_files fails IMAGE_CONFIGS 0 initGenState
      simpa [runGen, initGenState] using h
    have hcount := writtenFiles_count fails IMAGE_CONFIGS 0
      imageFilepaths_nodup k hk
    rw [Nat.zero_add] at hcount
    constructor
    · intro hf
      rw [hfiles, hcount, hf]
      simp
    · intro hf
      have h0 : (writtenFiles fails 0 IMAGE_CONFIGS).count
          (imageFilepath IMAGE_CONFIGS[k]) = 0 := by
        rw [hcount, hf]
        simp
      rw [hfiles]
      exact List.count_eq_zero.mp h0

/-- Witness for C1 at the all-success oracle and the first record. -/
theorem generator_each_item_one_outcome_witness :
    (runGen (fun _ => false)).generated + (runGen (fun _ => false)).errors
        = IMAGE_CONFIGS.length
    ∧ (runGen (fun _ => false)).files.count
        (imageFilepath ⟨"nuzzle", "cloud-white", "#F5F5F0", 1, 800, 800⟩)
        = 1 := by
  refine ⟨(generator_each_item_one_outcome (fun _ => false)).1, ?_⟩
  have h := ((generator_each_item_one_outcome (fun _ => false)).2.1 0
    (by decide)).1 rfl
  simpa [IMAGE_CONFIGS] using h

/-- Claim C2: the status-to-folder mapping is total: an allow-listed status
maps to itself, any other status maps to the default folder `backlog`. -/
theorem targetFolder_total (s : String) :
    (s ∈ STATUS_FOLDERS → targetFolder s = s)
    ∧ (s ∉ STATUS_FOLDERS → targetFolder s = "backlog") :=
  ⟨fun h => by rw [targetFolder, if_pos h],
   fun h => by rw [targetFolder, if_neg h]⟩

/-- Witness for C2 at an allow-listed and a non-allow-listed status. -/
theorem targetFolder_total_witness :
    targetFolder "done" = "done" ∧ targetFolder "wip" = "backlog" :=
  ⟨(targetFolder_total "done").1 (by decide),
   (targetFolder_total "wip").2 (by decide)⟩

/-- Claim C3 (counterexample): when the status file cannot be read, and
likewise when a status-folder `os.makedirs` call raises, the uncaught
exception makes the organizer exit with code 1, not 0 — refuting the claim
that the organizer always exits 0 for every status-file and base-directory
state. -/
theorem organizer_unreadable_file_exit_one :
    organizerExitCode none true (fun _ => false) (fun _ => false) = 1
    ∧ organizerExitCode (some []) false (fun _ => false) (fun _ => false)
        = 1 := ⟨rfl, rfl⟩

/-- Claim C3 (amended): whenever the status file is readable and the folder
creation succeeds, the organizer exits 0 regardless of the parsed content
and of every per-file move outcome; an unreadable status file propagates an
uncaught exception and the process exits nonzero. -/
theorem organizer_exit_zero_when_file_readable (ms : List StoryMatch)
    (e m : String → Bool) :
    organizerExitCode (some ms) true e m = 0 := rfl

/-- Claim C4: `main` returns exit code 0 iff every configured item was
generated without error, and 1 iff some item raised an error. -/
theorem generator_exit_code (fails : Nat → Bool) :
    (mainExit fails = 0 ↔ ∀ k, k < IMAGE_CONFIGS.length → fails k = false)
    ∧ (mainExit fails = 1 ↔
        ∃ k, k < IMAGE_CONFIGS.length ∧ fails k = true) := by
  have herr : (runGen fails).errors = 0 ↔
      ∀ k, k < IMAGE_CONFIGS.length → fails k = false := by
    have h := genLoop_errors_zero fails IMAGE_CONFIGS 0 initGenState
    simpa [runGen, initGenState] using h
  constructor
  · constructor
    · intro h0
      by_cases he : (runGen fails).errors = 0
      · exact herr.mp he
      · rw [mainExit, if_neg he] at h0
        exact absurd h0 one_ne_zero
    · intro hall
      rw [mainExit, if_pos (herr.mpr hall)]
  · constructor
    · intro h1
      by_cases he : (runGen fails).errors = 0
      · rw [mainExit, if_pos he] at h1
        exact absurd h1 zero_ne_one
      · have hnot := mt herr.mpr he
        push_neg at hnot
        obtain ⟨k, hk, hkf⟩ := hnot
        exact ⟨k, hk, by simpa using hkf⟩
    · rintro ⟨k, hk, hkt⟩
      have he : (runGen fails).errors ≠ 0 := by
        intro h0
        have hf := herr.mp h0 k hk
        rw [hkt] at hf
        exact Bool.noConfusion hf
      rw [mainExit, if_neg he]

/-- Witness for C4: the all-success oracle gives exit code 0. -/
theorem generator_exit_code_witness : mainExit (fun _ => false) = 0 :=
  (generator_exit_code (fun _ => false)).1.mpr (fun _ _ => rfl)

/-- Claim C5: in both scripts a per-item failure is caught (the loop step is
a total function that logs the error and increments the per-run counter)
and the loop continues with the remaining items: runs split over list
append, and every item is accounted for in the counters. -/
theorem per_item_failures_do_not_abort :
    (∀ (fails : Nat → Bool) (i : Nat) (st : GenState) (c : ImageConfig)
        (cs : List ImageConfig), fails i = true →
        genLoop fails i st (c :: cs)
          = genLoop fails (i + 1)
              { st with
                logs := st.logs ++ [GenLog.failed (c.product ++ "-"
                  ++ c.variant ++ "-0" ++ toString c.index)]
                errors := st.errors + 1 } cs)
    ∧ (∀ (fails : Nat → Bool) (p s : List ImageConfig) (i : Nat)
        (st : GenState),
        genLoop fails i st (p ++ s)
          = genLoop fails (i + p.length) (genLoop fails i st p) s)
    ∧ (∀ fails : Nat → Bool,
        (runGen fails).generated + (runGen fails).errors
          = IMAGE_CONFIGS.length)
    ∧ (∀ (e m : String → Bool) (st : OrgState) (fn stt : String)
        (ss : List (String × String)), e fn = true → m fn = true →
        orgLoop e m st ((fn, stt) :: ss)
          = orgLoop e m
              { st with
                logs := st.logs ++ [OrgLog.error fn]
                skipped := st.skipped + 1 } ss)
    ∧ (∀ (e m : String → Bool) (p s : List (String × String)) (st : OrgState),
        orgLoop e m st (p ++ s) = orgLoop e m (orgLoop e m st p) s)
    ∧ (∀ (e m : String → Bool) (ss : List (String × String)),
        (orgLoop e m initOrgState ss).moved
            + (orgLoop e m initOrgState ss).skipped
          = (ss.filter (fun q => e q.1)).length) := by
  refine ⟨?_, ?_, ?_, ?_, ?_, ?_⟩
  · intro fails i st c cs hf
    show genLoop fails (i + 1) (processConfig (fails i) st c) cs = _
    rw [hf]
    rfl
  · exact fun fails p s i st => genLoop_append fails p s i st
  · intro fails
    have h := genLoop_sum fails IMAGE_CONFIGS 0 initGenState
    simpa [runGen, initGenState] using h
  · intro e m st fn stt ss he hm
    show orgLoop e m (processStory e m st fn stt) ss = _
    have hp : processStory e m st fn stt
        = { st with
            logs := st.logs ++ [OrgLog.error fn]
            skipped := st.skipped + 1 } := by
      simp [processStory, he, hm]
    rw [hp]
  · exact fun e m p s st => orgLoop_append e m p s st
  · intro e m ss
    rw [orgLoop_moved, orgLoop_skipped]
    have h := filter_length_split e m ss
    simp only [initOrgState]
    omega

/-- Witness for C5: a failing first item is logged, counted and the loop
proceeds, in both scripts. -/
theorem per_item_failures_do_not_abort_witness :
    genLoop (fun _ => true) 0 initGenState
        [⟨"nuzzle", "cloud-white", "#F5F5F0", 1, 800, 800⟩]
      = genLoop (fun _ => true) (0 + 1)
          { initGenState with
            logs := initGenState.logs ++ [GenLog.failed ("nuzzle" ++ "-"
              ++ "cloud-white" ++ "-0" ++ toString 1)]
            errors := initGenState.errors + 1 } []
    ∧ orgLoop (fun _ => true) (fun _ => true) initOrgState [("a.md", "done")]
      = orgLoop (fun _ => true) (fun _ => true)
          { initOrgState with
            logs := initOrgState.logs ++ [OrgLog.error "a.md"]
            skipped := initOrgState.skipped + 1 } [] :=
  ⟨per_item_failures_do_not_abort.1 (fun _ => true) 0 initGenState
      ⟨"nuzzle", "cloud-white", "#F5F5F0", 1, 800, 800⟩ [] rfl,
   per_item_failures_do_not_abort.2.2.2.1 (fun _ => true) (fun _ => true)
      initOrgState "a.md" "done" [] rfl rfl⟩

/-- Claim C6: a parsed story whose source file does not exist at the root of
the base directory is silently skipped: the loop state (moves, console
output, counters) is exactly as if the story were absent, so a second run
over already-moved files raises no error. -/
theorem organizer_missing_file_silently_skipped (e m : String → Bool)
    (st : OrgState) (fn stt : String) (ss : List (String × String))
    (h : e fn = false) :
    orgLoop e m st ((fn, stt) :: ss) = orgLoop e m st ss := by
  show orgLoop e m (processStory e m st fn stt) ss = _
  have hp : processStory e m st fn stt = st := by
    simp [processStory, h]
  rw [hp]

/-- Witness for C6 at a concrete absent file. -/
theorem organizer_missing_file_silently_skipped_witness :
    orgLoop (fun _ => false) (fun _ => false) initOrgState [("a.md", "done")]
      = orgLoop (fun _ => false) (fun _ => false) initOrgState [] :=
  organizer_missing_file_silently_skipped (fun _ => false) (fun _ => false)
    initOrgState "a.md" "done" [] rfl

/-- Claim C8: `skipped_count` counts exactly the stories whose move raised,
`moved_count` counts exactly the stories whose move succeeded, and a story
whose source file is absent changes neither counter. -/
theorem organizer_counters_frame (e m : String → Bool)
    (ss : List (String × String)) :
    (orgLoop e m initOrgState ss).skipped
        = (ss.filter (fun q => e q.1 && m q.1)).length
    ∧ (orgLoop e m initOrgState ss).moved
        = (ss.filter (fun q => e q.1 && !m q.1)).length
    ∧ ∀ (st : OrgState) (fn stt : String), e fn = false →
        (processStory e m st fn stt).moved = st.moved
        ∧ (processStory e m st fn stt).skipped = st.skipped := by
  refine ⟨?_, ?_, ?_⟩
  · rw [orgLoop_skipped]
    simp [initOrgState]
  · rw [orgLoop_moved]
    simp [initOrgState]
  · intro st fn stt h
    constructor <;> simp [processStory, h]

/-- Witness for C8: an absent file leaves both counters unchanged. -/
theorem organizer_counters_frame_witness :
    (processStory (fun _ => false) (fun _ => false) initOrgState
        "a.md" "done").moved = initOrgState.moved
    ∧ (processStory (fun _ => false) (fun _ => false) initOrgState
        "a.md" "done").skipped = initOrgState.skipped :=
  (organizer_counters_frame (fun _ => false) (fun _ => false) []).2.2
    initOrgState "a.md" "done" rfl

/-- Claim C9: `parse_stories_from_yaml` keys its dict by the basename of the
matched path; looking a basename up yields the status of the last match in
file order with that basename, and the dict holds at most one entry per
basename. -/
theorem parse_stories_basename_last_wins (ms : List StoryMatch) (b : String) :
    dictLookup (parse_stories ms) b
      = (ms.reverse.find? (fun mm => basename mm.path == b)).map
          StoryMatch.status
    ∧ ((parse_stories ms).filter (fun q => q.1 == b)).length ≤ 1 := by
  constructor
  · exact parse_stories_lookup ms b
  · rw [filter_key_length_eq_count]
    exact List.nodup_iff_count_le_one.mp (parse_stories_keys_nodup ms) b

/-- Claim C10: on an optional leading `#` followed by exactly six hex
digits, `hex_to_rgb` returns the values of the three consecutive two-digit
pairs, each between 0 and 255. -/
theorem hex_to_rgb_six_digits (c1 c2 c3 c4 c5 c6 : Char)
    (v1 v2 v3 v4 v5 v6 : Nat)
    (h1 : hexDigitVal c1 = some v1) (h2 : hexDigitVal c2 = some v2)
    (h3 : hexDigitVal c3 = some v3) (h4 : hexDigitVal c4 = some v4)
    (h5 : hexDigitVal c5 = some v5) (h6 : hexDigitVal c6 = some v6) :
    hex_to_rgb ['#', c1, c2, c3, c4, c5, c6]
        = some (16 * v1 + v2, 16 * v3 + v4, 16 * v5 + v6)
    ∧ hex_to_rgb [c1, c2, c3, c4, c5, c6]
        = some (16 * v1 + v2, 16 * v3 + v4, 16 * v5 + v6)
    ∧ 16 * v1 + v2 ≤ 255 ∧ 16 * v3 + v4 ≤ 255 ∧ 16 * v5 + v6 ≤ 255 := by
  have hne1 : ¬ c1 = '#' := hexDigitVal_ne_hash c1 v1 h1
  have hl : lstripHash ['#', c1, c2, c3, c4, c5, c6]
      = [c1, c2, c3, c4, c5, c6] := by
    show lstripHash [c1, c2, c3, c4, c5, c6] = [c1, c2, c3, c4, c5, c6]
    exact lstripHash_cons_ne c1 _ hne1
  have hl2 : lstripHash [c1, c2, c3, c4, c5, c6]
      = [c1, c2, c3, c4, c5, c6] := lstripHash_cons_ne c1 _ hne1
  have hcore : ∀ h : List Char, h = [c1, c2, c3, c4, c5, c6] →
      (match pythonIntHex (pySlice h 0 2), pythonIntHex (pySlice h 2 4),
            pythonIntHex (pySlice h 4 6) with
        | some r, some g, some b => some (r, g, b)
        | _, _, _ => none)
        = some (16 * v1 + v2, 16 * v3 + v4, 16 * v5 + v6) := by
    rintro h rfl
    have hp0 : pySlice [c1, c2, c3, c4, c5, c6] 0 2 = [c1, c2] := rfl
    have hp1 : pySlice [c1, c2, c3, c4, c5, c6] 2 4 = [c3, c4] := rfl
    have hp2 : pySlice [c1, c2, c3, c4, c5, c6] 4 6 = [c5, c6] := rfl
    rw [hp0, hp1, hp2, pythonIntHex_pair c1 c2 v1 v2 h1 h2,
      pythonIntHex_pair c3 c4 v3 v4 h3 h4,
      pythonIntHex_pair c5 c6 v5 v6 h5 h6]
  refine ⟨?_, ?_, ?_, ?_, ?_⟩
  · show (match pythonIntHex (pySlice (lstripHash ['#', c1, c2, c3, c4, c5, c6]) 0 2),
        pythonIntHex (pySlice (lstripHash ['#', c1, c2, c3, c4, c5, c6]) 2 4),
        pythonIntHex (pySlice (lstripHash ['#', c1, c2, c3, c4, c5, c6]) 4 6) with
      | some r, some g, some b => some (r, g, b)
      | _, _, _ => none) = _
    rw [hl]
    exact hcore _ rfl
  · show (match pythonIntHex (pySlice (lstripHash [c1, c2, c3, c4, c5, c6]) 0 2),
        pythonIntHex (pySlice (lstripHash [c1, c2, c3, c4, c5, c6]) 2 4),
        pythonIntHex (pySlice (lstripHash [c1, c2, c3, c4, c5, c6]) 4 6) with
      | some r, some g, some b => some (r, g, b)
      | _, _, _ => none) = _
    rw [hl2]
    exact hcore _ rfl
  · have := hexDigitVal_le_15 c1 v1 h1
    have := hexDigitVal_le_15 c2 v2 h2
    omega
  · have := hexDigitVal_le_15 c3 v3 h3
    have := hexDigitVal_le_15 c4 v4 h4
    omega
  · have := hexDigitVal_le_15 c5 v5 h5
    have := hexDigitVal_le_15 c6 v6 h6
    omega

/-- Witness for C10 on the configured color `#FF6B35`. -/
theorem hex_to_rgb_six_digits_witness :
    hex_to_rgb ['#', 'F', 'F', '6', 'B', '3', '5']
      = some (16 * 15 + 15, 16 * 6 + 11, 16 * 3 + 5) :=
  (hex_to_rgb_six_digits 'F' 'F' '6' 'B' '3' '5' 15 15 6 11 3 5
    (by decide) (by decide) (by decide) (by decide) (by decide)
    (by decide)).1

end Claims

section ClaimSeven

open ProductImages

/-- Claim C7: every configured item that succeeds has its output written
into the fixed uploads directory under the name
`{product}-{variant}-0{index}.png` (a literal `0` before the index). -/
theorem generator_success_writes_patterned_file (fails : Nat → Bool)
    (k : Nat) (hk : k < IMAGE_CONFIGS.length) (hs : fails k = false) :
    UPLOADS_DIR ++ "/" ++ (IMAGE_CONFIGS[k].product ++ "-"
        ++ IMAGE_CONFIGS[k].variant ++ "-0"
        ++ toString IMAGE_CONFIGS[k].index ++ ".png")
      ∈ (runGen fails).files := by
  have hfiles : (runGen fails).files = writtenFiles fails 0 IMAGE_CONFIGS := by
    have h := genLoop_files fails IMAGE_CONFIGS 0 initGenState
    simpa [runGen, initGenState] using h
  have hcount := writtenFiles_count fails IMAGE_CONFIGS 0
    imageFilepaths_nodup k hk
  rw [Nat.zero_add, hs] at hcount
  rw [hfiles]
  show imageFilepath IMAGE_CONFIGS[k] ∈ writtenFiles fails 0 IMAGE_CONFIGS
  by_contra hnm
  rw [List.count_eq_zero.mpr hnm] at hcount
  simp at hcount

/-- Witness for C7: with no failures, the first configured record's file is
written under its patterned name. -/
theorem generator_success_writes_patterned_file_witness :
    UPLOADS_DIR ++ "/" ++ ("nuzzle" ++ "-" ++ "cloud-white" ++ "-0"
        ++ toString 1 ++ ".png")
      ∈ (runGen (fun _ => false)).files := by
  have h := generator_success_writes_patterned_file (fun _ => false) 0
    (by decide) rfl
  simpa [IMAGE_CONFIGS] using h

end ClaimSeven
